import Mathlib

/-!
Verification of the dtb-viewer conversion pipeline (`dtb_viewer.py`).

The program is a thin GUI wrapper: the one piece of logic is
`process_dtb_file`, which invokes the external `dtc` compiler, classifies
the outcome, rewrites diagnostic lines (`_reformat_dtc_output_line`),
and updates UI/`recent_files` state.  We shallowly embed that logic here:

* lines and file texts are `List Char`;
* the regex substitution
  `re.subn(r"/tmp/([^-]+)-<uuid4-hex-groups>\.dts", r"\1.dts", line)`
  is embedded as an executable scanner (`subnAux`) that reproduces the
  Python engine's leftmost, non-overlapping matching.  The only
  variable-length piece of the pattern, `[^-]+`, is greedy and cannot
  contain `-`, so at each candidate position the match is deterministic:
  the capture is exactly the maximal dash-free run after `/tmp/`;
* Python `str.strip()` / `str.splitlines()` are embedded over the ASCII
  whitespace / line-break repertoire (sufficient for the texts at issue);
* the environment (file existence, subprocess outcome, scratch-file
  contents after the run) is an explicit `Env` record; `process_dtb_file`
  is a pure function of it, returning the structured outcome plus the
  updated recent-files list.
-/

set_option maxRecDepth 8000

namespace DtbViewer

abbrev Str := List Char

def str (s : String) : Str := s.data

/-- Hex digit class `[0-9a-fA-F]` of the rewrite regex. -/
def isHexChar (c : Char) : Bool :=
  (48 ≤ c.toNat && c.toNat ≤ 57) || (97 ≤ c.toNat && c.toNat ≤ 102)
    || (65 ≤ c.toNat && c.toNat ≤ 70)

/-- Strip a literal prefix, returning the remainder (regex literal part). -/
def dropLit : Str → Str → Option Str
  | [], l => some l
  | _ :: _, [] => none
  | c :: p, d :: l => if c = d then dropLit p l else none

/-- Consume exactly `n` hex digits (regex `[0-9a-fA-F]\x7bn\x7d`). -/
def takeHex : Nat → Str → Option Str
  | 0, l => some l
  | _ + 1, [] => none
  | n + 1, c :: cs => if isHexChar c then takeHex n cs else none

/-- Maximal run of non-dash characters (regex `[^-]+`, greedy). -/
def spanNonDash : Str → Str × Str
  | [] => ([], [])
  | c :: cs =>
    if c = '-' then ([], c :: cs)
    else
      let p := spanNonDash cs
      (c :: p.1, p.2)

/-- Match the UUID4 tail `8-4-4-4-12` hex groups followed by `.dts`;
returns the rest of the line after the match. -/
def matchUuidDts (l : Str) : Option Str :=
  (takeHex 8 l).bind fun l =>
  (dropLit (str ("-")) l).bind fun l =>
  (takeHex 4 l).bind fun l =>
  (dropLit (str ("-")) l).bind fun l =>
  (takeHex 4 l).bind fun l =>
  (dropLit (str ("-")) l).bind fun l =>
  (takeHex 4 l).bind fun l =>
  (dropLit (str ("-")) l).bind fun l =>
  (takeHex 12 l).bind fun l =>
  dropLit (str (".dts")) l

/-- Attempt the whole pattern
`/tmp/([^-]+)-hex8-hex4-hex4-hex4-hex12\.dts` at the head of `l`;
on success returns the captured group and the rest of the line. -/
def matchTmpDts (l : Str) : Option (Str × Str) :=
  (dropLit (str ("/tmp/")) l).bind fun l1 =>
    if (spanNonDash l1).1.isEmpty then none
    else
      match (spanNonDash l1).2 with
      | '-' :: l3 => (matchUuidDts l3).map fun rest => ((spanNonDash l1).1, rest)
      | _ => none

/-- Engine of `re.subn`: scan left to right; at a match emit
`capture ++ ".dts"` and continue after the matched text (non-overlapping),
else keep the character.  Also counts substitutions.  `fuel` bounds the
recursion; with `fuel ≥ l.length` it is never exhausted. -/
def subnAux : Nat → Str → Str × Nat
  | _, [] => ([], 0)
  | 0, l => (l, 0)
  | fuel + 1, c :: cs =>
    match matchTmpDts (c :: cs) with
    | some (base, rest) =>
      let p := subnAux fuel rest
      (base ++ str (".dts") ++ p.1, p.2 + 1)
    | none =>
      let p := subnAux fuel cs
      (c :: p.1, p.2)

/-- The rewritten line (first component of `re.subn`). -/
def rewriteLine (l : Str) : Str := (subnAux l.length l).1

/-- Model of `_reformat_dtc_output_line` (dtb_viewer.py:142-155): apply the
substitution; if any replacement happened return the rewritten line,
else the original. -/
def reformat_dtc_output_line (line : Str) : Str :=
  let p := subnAux line.length line
  if 0 < p.2 then p.1 else line

/-- Whether the first list is a literal prefix of the second. -/
def isPrefixB : Str → Str → Bool
  | [], _ => true
  | _ :: _, [] => false
  | c :: p, d :: l => if c = d then isPrefixB p l else false

/-- Whether `needle` occurs as a contiguous substring of the line. -/
def containsSub (needle : Str) : Str → Bool
  | [] => isPrefixB needle []
  | c :: rest => isPrefixB needle (c :: rest) || containsSub needle rest

/-- ASCII whitespace stripped by Python `str.strip()`. -/
def isPyWhitespace (c : Char) : Bool :=
  c = ' ' || c = '\t' || c = '\n' || c = '\r' || c = '\x0b' || c = '\x0c'

/-- Python `str.strip()` (over the ASCII whitespace repertoire). -/
def pyStrip (s : Str) : Str :=
  ((s.dropWhile isPyWhitespace).reverse.dropWhile isPyWhitespace).reverse

/-- Line-break characters recognised by Python `str.splitlines()`
other than `\r` (which is treated separately to fold `\r\n`). -/
def isLineBreakChar (c : Char) : Bool :=
  c = '\n' || c = '\x0b' || c = '\x0c' || c = '\x1c' || c = '\x1d' || c = '\x1e'
    || c.toNat = 133 || c.toNat = 8232 || c.toNat = 8233

/-- Worker for `splitlines`: `cur` is the current line, reversed.
`\r\n` counts as a single break. -/
def splitlinesGo : Str → Str → List Str
  | cur, [] => [cur.reverse]
  | cur, '\r' :: '\n' :: rest =>
    cur.reverse :: (if rest.isEmpty then [] else splitlinesGo [] rest)
  | cur, c :: rest =>
    if c = '\r' || isLineBreakChar c then
      cur.reverse :: (if rest.isEmpty then [] else splitlinesGo [] rest)
    else
      splitlinesGo (c :: cur) rest

/-- Python `str.splitlines()`: a trailing break adds no empty line, and
the empty string yields no lines. -/
def splitlines (s : Str) : List Str :=
  if s.isEmpty then [] else splitlinesGo [] s

/-- Decimal rendering of the subprocess return code (Python f-string). -/
def intRepr (i : Int) : Str := (toString i).data

/-- Outcome of `subprocess.run(dtc_command, capture_output=True, text=True,
check=False)`: either the process completed with a return code and
captured stderr text, or launching it raised `FileNotFoundError`, or some
other exception `e` was raised (carrying `str(e)`). -/
inductive RunOutcome where
  | completed (returncode : Int) (stderrText : Str)
  | fileNotFound
  | otherError (msg : Str)
deriving DecidableEq

/-- The environment a single `process_dtb_file` call observes: the file
system, the generated UUID, and the external tool's behaviour.
`out_file_exists` / `out_file_content` describe the scratch output file
after the run (`out_file_content` is the text as decoded by
`open(..., encoding="utf-8", errors="replace")`, which never fails). -/
structure Env where
  input_is_file : Bool
  resolved_input : Str
  input_stem : Str
  tmp_writable : Bool
  fallback_writable : Bool
  fallback_dir : Str
  uuid : Str
  run : RunOutcome
  out_file_exists : Bool
  out_file_content : Str
deriving DecidableEq

/-- Scratch-directory resolution (dtb_viewer.py:225-237): prefer `/tmp`,
fall back to `tempfile.gettempdir()`, else fail. -/
def scratchDir (e : Env) : Option Str :=
  if e.tmp_writable then some (str ("/tmp"))
  else if e.fallback_writable then some e.fallback_dir
  else none

/-- The generated scratch output path
`tmp_dir / (stem + "-" + uuid4 + ".dts")` (dtb_viewer.py:222-239). -/
def out_dts_path (e : Env) (dir : Str) : Str :=
  dir ++ str ("/") ++ e.input_stem ++ str ("-") ++ e.uuid ++ str (".dts")

/-- The structured result of a conversion attempt that reached the
display stage: the mutable quantities `process_dtb_file` computes. -/
structure ConvResult where
  dts_content : Str
  stderr_lines : List Str
  issues_count : Nat
  dtc_success : Bool
  can_use : Bool
deriving DecidableEq

/-- Builds the result fields, with
`can_use_dts_features = dtc_success and bool(dts_content)`
(dtb_viewer.py:387); `issues_count = len(stderr_lines)`. -/
def mkResult (dts_content : Str) (lines : List Str) (succ : Bool) : ConvResult :=
  { dts_content := dts_content, stderr_lines := lines,
    issues_count := lines.length, dtc_success := succ,
    can_use := succ && !dts_content.isEmpty }

/-- Overall outcome of `process_dtb_file`: the two early-return paths
(nonexistent input, no usable scratch directory) are distinct conditions;
otherwise a `ConvResult` is produced and rendered. -/
inductive Outcome where
  | invalidInput
  | scratchUnavailable
  | result (r : ConvResult)
deriving DecidableEq

def Outcome.isResult : Outcome → Bool
  | .result _ => true
  | _ => false

/-- Diagnostic lines shown in the Issues panel; the early-return paths go
through `clear_views`, which empties it. -/
def Outcome.diags : Outcome → List Str
  | .result r => r.stderr_lines
  | _ => []

/-- The `dtc_success` flag of the produced result (false on the
early-return paths). -/
def Outcome.success : Outcome → Bool
  | .result r => r.dtc_success
  | _ => false

/-- Whether the save/find actions end up enabled: `can_use_dts_features`
on a rendered result; the early-return paths disable them via
`clear_views`. -/
def Outcome.can_use : Outcome → Bool
  | .result r => r.can_use
  | _ => false

/-- Displayed text of the DTS panel. -/
def Outcome.text : Outcome → Str
  | .result r => r.dts_content
  | _ => []

def MAX_RECENT_FILES : Nat := 10

/-- Model of `add_to_recent_files` (dtb_viewer.py:67-74): move-to-front with
first-occurrence removal (`list.remove`), truncated to the bound. -/
def add_to_recent_files (p : Str) (recent : List Str) : List Str :=
  (p :: recent.erase p).take MAX_RECENT_FILES

/-- Initial population of `stderr_lines` (dtb_viewer.py:263-268): if the
captured stderr text is non-empty (Python truthiness), strip it, split it
into lines and rewrite each line; otherwise the empty list. -/
def initial_stderr_lines (stderrText : Str) : List Str :=
  if stderrText.isEmpty then []
  else (splitlines (pyStrip stderrText)).map reformat_dtc_output_line

/-- The synthesized message for exit 0 with a missing artifact
(dtb_viewer.py:284). -/
def missing_artifact_msg (outPath : Str) : Str :=
  str ("Error: dtc ran successfully but output file ") ++ outPath
    ++ str (" was not created.")

/-- The synthesized message for a non-zero exit (dtb_viewer.py:291). -/
def exit_code_msg (rc : Int) : Str :=
  str ("dtc command failed with exit code ") ++ intRepr rc ++ str (".")

/-- The synthesized silent-success message (dtb_viewer.py:278). -/
def success_msg : Str := str ("dtc command executed successfully.")

/-- The `FileNotFoundError` message (dtb_viewer.py:324). -/
def dtc_not_found_msg : Str :=
  str ("Error: ") ++ ['\x27'] ++ str ("dtc") ++ ['\x27']
    ++ str (" command not found. Please ensure it is installed and in your PATH.")

/-- Model of `process_dtb_file` (dtb_viewer.py:213-391) as a pure function of the
observed environment.  Returns the outcome together with the updated
recent-files list (which is also what `save_recent_files` persists). -/
def process_dtb_file (e : Env) (recent : List Str) : Outcome × List Str :=
  if e.input_is_file then
    match scratchDir e with
    | none => (Outcome.scratchUnavailable, recent)
    | some dir =>
      let outPath := out_dts_path e dir
      match e.run with
      | RunOutcome.completed rc stderrText =>
        let lines0 := initial_stderr_lines stderrText
        if rc = 0 then
          if e.out_file_exists then
            let lines1 := if lines0.isEmpty then [success_msg] else lines0
            let lines2 := lines1.map reformat_dtc_output_line
            (Outcome.result (mkResult e.out_file_content lines2 true),
              add_to_recent_files e.resolved_input recent)
          else
            let msg := missing_artifact_msg outPath
            let lines2 := (lines0 ++ [msg]).map reformat_dtc_output_line
            (Outcome.result (mkResult msg lines2 false), recent)
        else
          let msg := exit_code_msg rc
          let lines1 := if lines0.isEmpty then [msg] else msg :: lines0
          let lines2 := lines1.map reformat_dtc_output_line
          (Outcome.result (mkResult msg lines2 false), recent)
      | RunOutcome.fileNotFound =>
        let lines := [dtc_not_found_msg].map reformat_dtc_output_line
        (Outcome.result (mkResult dtc_not_found_msg lines false), recent)
      | RunOutcome.otherError m =>
        let msg := str ("An unexpected error occurred during dtc execution: ") ++ m
        let lines := [m].map reformat_dtc_output_line
        (Outcome.result (mkResult msg lines false), recent)
  else (Outcome.invalidInput, recent)

/-- Tool exited with code 0 (regardless of stderr). -/
def Env.exitedZero (e : Env) : Bool :=
  match e.run with
  | RunOutcome.completed rc _ => rc == 0
  | _ => false

/-- The conversion reached the branch that materializes the text and
updates the recent-files list: valid input, usable scratch storage, exit
code 0, and the artifact exists (dtb_viewer.py:271-276). -/
def convSucceeded (e : Env) : Bool :=
  e.input_is_file && (scratchDir e).isSome && e.exitedZero && e.out_file_exists

/-- The slice of main-window state touched by `clear_views`
(dtb_viewer.py:418-430), plus the recent-files list it leaves alone. -/
structure AppState where
  current_dts_content : Str
  current_dtb_basename : Str
  dts_text : Str
  issues_text : Str
  tab0_title : Str
  tab1_title : Str
  save_enabled : Bool
  find_enabled : Bool
  last_search_term : Str
  recent_files : List Str
deriving DecidableEq

/-- Model of `clear_views` (dtb_viewer.py:418-430): resets the panels and disables
the actions; `self.recent_files` is intentionally not cleared. -/
def clear_views (s : AppState) : AppState :=
  { s with
    current_dts_content := [],
    current_dtb_basename := str ("Untitled"),
    dts_text := [],
    issues_text := [],
    tab0_title := str ("DTS Output"),
    tab1_title := str ("Issues (0)"),
    save_enabled := false,
    find_enabled := false,
    last_search_term := [] }

/-- UTF-8 encoding of one code point. -/
def utf8Bytes (c : Char) : List Nat :=
  let n := c.toNat
  if n < 128 then [n]
  else if n < 2048 then [192 + n / 64, 128 + n % 64]
  else if n < 65536 then
    [224 + n / 4096, 128 + n / 64 % 64, 128 + n % 64]
  else
    [240 + n / 262144, 128 + n / 4096 % 64, 128 + n / 64 % 64, 128 + n % 64]

/-- UTF-8 encoding of a text, as the byte sequence
`open(path, "w", encoding="utf-8")` writes on a Unix platform (where the
newline translation is the identity). -/
def utf8Encode (s : Str) : List Nat := (s.map utf8Bytes).flatten

/-- The state `save_dts_as` reads: the retained conversion text, the text
panel's current contents (`toPlainText`, equal to the text set by
`setPlainText`), and the save action's enabled flag. -/
structure SaveState where
  current_dts_content : Str
  displayed_text : Str
  save_enabled : Bool

/-- Model of `save_dts_as` (dtb_viewer.py:394-416): refuses when there is no
content or saving is disabled; otherwise writes the displayed text,
UTF-8 encoded, to the chosen destination.  Returns the written bytes. -/
def save_dts_as (s : SaveState) : Option (List Nat) :=
  if s.current_dts_content.isEmpty || !s.save_enabled then none
  else some (utf8Encode s.displayed_text)

/-! ## Concrete inputs used by counterexamples and witnesses -/

/-- A run on `board.dtb`: tool exits 0 silently and writes the artifact. -/
def envSilentSuccess : Env :=
  { input_is_file := true, resolved_input := str ("/home/u/board.dtb"),
    input_stem := str ("board"), tmp_writable := true,
    fallback_writable := true, fallback_dir := str ("/var/tmp"),
    uuid := str ("00000000-0000-0000-0000-000000000000"),
    run := RunOutcome.completed 0 (str ("")),
    out_file_exists := true, out_file_content := str ("/dts-v1/;") }

/-- Same run except the materialized scratch file is empty. -/
def envEmptyOutput : Env := { envSilentSuccess with out_file_content := str ("") }

/-- A run on `bad.dtb`: tool exits 2 with one stderr line. -/
def envExit2 : Env :=
  { envSilentSuccess with
    input_stem := str ("bad"),
    resolved_input := str ("/home/u/bad.dtb"),
    run := RunOutcome.completed 2 (str ("bad.dtb: invalid magic")),
    out_file_exists := false, out_file_content := str ("") }

/-- A run where the tool exits 0 but the artifact is missing. -/
def envMissingArtifact : Env :=
  { envSilentSuccess with out_file_exists := false, out_file_content := str ("") }

/-- A request whose input path does not name an existing regular file. -/
def envNoInput : Env := { envSilentSuccess with input_is_file := false }

/-- The generated scratch path for an input `a-b.dtb` whose stem contains
a hyphen (a valid uuid4 token follows the second hyphen). -/
def dashStemLine : Str :=
  str ("/tmp/a-b-00000000-0000-0000-0000-000000000000.dts")

/-- A line on which the rewrite is not idempotent: the first pass rewrites
only the embedded second path, and the glued residue
`/tmp/a-<8-4-4-4-11 hex>` + `b.dts` then matches on the second pass. -/
def overlapLine : Str :=
  str ("/tmp/a-00000000-0000-0000-0000-00000000000/tmp/b-00000000-0000-0000-0000-000000000000.dts")

/-- A window state with non-trivial contents, for the `clear_views`
frame condition. -/
def appStateEx : AppState :=
  { current_dts_content := str ("/dts-v1/;"),
    current_dtb_basename := str ("board.dtb"),
    dts_text := str ("/dts-v1/;"), issues_text := str ("ok"),
    tab0_title := str ("board.dtb"), tab1_title := str ("Issues (1)"),
    save_enabled := true, find_enabled := true,
    last_search_term := str ("memory"),
    recent_files := [str ("/home/u/board.dtb"), str ("/home/u/old.dtb")] }

/-! ## Lemmas about the rewrite scanner -/

theorem dropLit_length {p l r : Str} (h : dropLit p l = some r) :
    p.length + r.length = l.length := by
  induction p generalizing l with
  | nil =>
    simp only [dropLit, Option.some.injEq] at h
    simp [h]
  | cons c p ih =>
    cases l with
    | nil => simp [dropLit] at h
    | cons d l =>
      simp only [dropLit] at h
      split at h
      · have := ih h
        simp only [List.length_cons]
        omega
      · exact absurd h (by simp)

theorem dropLit_isPrefixB {p l r : Str} (h : dropLit p l = some r) :
    isPrefixB p l = true := by
  induction p generalizing l with
  | nil => simp [isPrefixB]
  | cons c p ih =>
    cases l with
    | nil => simp [dropLit] at h
    | cons d l =>
      simp only [dropLit] at h
      split at h
      · simp [isPrefixB, *, ih h]
      · exact absurd h (by simp)

theorem dropLit_self (p r : Str) : dropLit p (p ++ r) = some r := by
  induction p with
  | nil => rfl
  | cons c p ih => simp [dropLit, ih]

theorem takeHex_length {n : Nat} {l r : Str} (h : takeHex n l = some r) :
    n + r.length = l.length := by
  induction n generalizing l with
  | zero =>
    simp only [takeHex, Option.some.injEq] at h
    simp [h]
  | succ n ih =>
    cases l with
    | nil => simp [takeHex] at h
    | cons c l =>
      simp only [takeHex] at h
      split at h
      · have := ih h
        simp only [List.length_cons]
        omega
      · exact absurd h (by simp)

theorem takeHex_exact {s : Str} {n : Nat} (hl : s.length = n)
    (hh : ∀ c ∈ s, isHexChar c = true) (r : Str) :
    takeHex n (s ++ r) = some r := by
  induction s generalizing n with
  | nil => subst hl; rfl
  | cons c s ih =>
    subst hl
    simp only [List.length_cons, List.cons_append, takeHex]
    rw [if_pos (hh c (by simp))]
    exact ih rfl (fun d hd => hh d (by simp [hd])) 

theorem spanNonDash_append (l : Str) :
    (spanNonDash l).1 ++ (spanNonDash l).2 = l := by
  induction l with
  | nil => rfl
  | cons c cs ih =>
    simp only [spanNonDash]
    split
    · rfl
    · simpa using ih

theorem spanNonDash_no_dash {s : Str} (h : ∀ c ∈ s, c ≠ '-') (r : Str) :
    spanNonDash (s ++ '-' :: r) = (s, '-' :: r) := by
  induction s with
  | nil => rfl
  | cons c s ih =>
    simp only [List.cons_append, spanNonDash]
    rw [if_neg (h c (by simp))]
    show (c :: (spanNonDash (s ++ '-' :: r)).1, (spanNonDash (s ++ '-' :: r)).2)
      = (c :: s, '-' :: r)
    rw [ih (fun d hd => h d (by simp [hd]))]

theorem matchUuidDts_length {l r : Str} (h : matchUuidDts l = some r) :
    r.length + 40 = l.length := by
  simp only [matchUuidDts, Option.bind_eq_some] at h
  obtain ⟨a1, h1, a2, h2, a3, h3, a4, h4, a5, h5, a6, h6, a7, h7, a8, h8, a9, h9, h10⟩ := h
  have e1 := takeHex_length h1
  have e2 := dropLit_length h2
  have e3 := takeHex_length h3
  have e4 := dropLit_length h4
  have e5 := takeHex_length h5
  have e6 := dropLit_length h6
  have e7 := takeHex_length h7
  have e8 := dropLit_length h8
  have e9 := takeHex_length h9
  have e10 := dropLit_length h10
  rw [show (str ("-")).length = 1 from rfl] at e2 e4 e6 e8
  rw [show (str (".dts")).length = 4 from rfl] at e10
  omega

theorem matchTmpDts_shrink {l : Str} {p : Str × Str}
    (h : matchTmpDts l = some p) : p.2.length < l.length := by
  simp only [matchTmpDts, Option.bind_eq_some] at h
  obtain ⟨l1, hd, h⟩ := h
  have hlen := dropLit_length hd
  rw [show (str ("/tmp/")).length = 5 from rfl] at hlen
  split at h
  · exact absurd h (by simp)
  · rename_i hne
    have hspan := spanNonDash_append l1
    split at h
    · rename_i l3 hsp
      simp only [Option.map_eq_some'] at h
      obtain ⟨rest, hu, h⟩ := h
      have hrest := matchUuidDts_length hu
      have h1 : (spanNonDash l1).1.length + ('-' :: l3).length = l1.length := by
        rw [← hsp, ← List.length_append, hspan]
      have hb : 1 ≤ (spanNonDash l1).1.length := by
        cases hq : (spanNonDash l1).1 with
        | nil => rw [hq] at hne; simp at hne
        | cons a b => simp
      have h2 : p.2 = rest := by rw [← h]
      rw [h2]
      simp only [List.length_cons] at h1
      omega
    · exact absurd h (by simp)

theorem subnAux_nil (f : Nat) : subnAux f [] = ([], 0) := by
  cases f <;> rfl

theorem subnAux_zero (l : Str) : subnAux 0 l = (l, 0) := by
  cases l <;> rfl

theorem subnAux_cons (f : Nat) (c : Char) (cs : Str) :
    subnAux (f + 1) (c :: cs) =
      match matchTmpDts (c :: cs) with
      | some (base, rest) =>
        (base ++ str (".dts") ++ (subnAux f rest).1, (subnAux f rest).2 + 1)
      | none => (c :: (subnAux f cs).1, (subnAux f cs).2) := rfl

theorem subnAux_cons_some {c : Char} {cs base rest : Str} (f : Nat)
    (h : matchTmpDts (c :: cs) = some (base, rest)) :
    subnAux (f + 1) (c :: cs)
      = (base ++ str (".dts") ++ (subnAux f rest).1, (subnAux f rest).2 + 1) := by
  rw [subnAux_cons, h]

theorem subnAux_cons_none {c : Char} {cs : Str} (f : Nat)
    (h : matchTmpDts (c :: cs) = none) :
    subnAux (f + 1) (c :: cs) = (c :: (subnAux f cs).1, (subnAux f cs).2) := by
  rw [subnAux_cons, h]

theorem subnAux_fuel (f1 f2 : Nat) (l : Str) (h1 : l.length ≤ f1)
    (h2 : l.length ≤ f2) : subnAux f1 l = subnAux f2 l := by
  induction f1 generalizing f2 l with
  | zero =>
    have : l = [] := by
      cases l with
      | nil => rfl
      | cons c cs => simp at h1
    subst this
    rw [subnAux_nil, subnAux_nil]
  | succ n ih =>
    cases l with
    | nil => rw [subnAux_nil, subnAux_nil]
    | cons c cs =>
      cases f2 with
      | zero => simp at h2
      | succ m =>
        simp only [List.length_cons] at h1 h2
        cases hm : matchTmpDts (c :: cs) with
        | some q =>
          obtain ⟨base, rest⟩ := q
          have hr : rest.length < cs.length + 1 := matchTmpDts_shrink hm
          rw [subnAux_cons_some n hm, subnAux_cons_some m hm,
            ih m rest (by omega) (by omega)]
        | none =>
          rw [subnAux_cons_none n hm, subnAux_cons_none m hm,
            ih m cs (by omega) (by omega)]

theorem subnAux_count_zero {f : Nat} {l : Str}
    (h : (subnAux f l).2 = 0) : (subnAux f l).1 = l := by
  induction f generalizing l with
  | zero => rw [subnAux_zero]
  | succ n ih =>
    cases l with
    | nil => rw [subnAux_nil]
    | cons c cs =>
      cases hm : matchTmpDts (c :: cs) with
      | some q =>
        obtain ⟨base, rest⟩ := q
        rw [subnAux_cons_some n hm] at h
        simp at h
      | none =>
        rw [subnAux_cons_none n hm] at h ⊢
        simp only at h ⊢
        rw [ih h]

/-- The `if num_subs > 0` in `_reformat_dtc_output_line` is a no-op:
a zero-substitution pass returns the line unchanged anyway. -/
theorem reformat_eq (l : Str) : reformat_dtc_output_line l = rewriteLine l := by
  show (if 0 < (subnAux l.length l).2 then (subnAux l.length l).1 else l)
    = (subnAux l.length l).1
  split
  · rfl
  · rename_i h
    exact (subnAux_count_zero (by omega)).symm

theorem matchTmpDts_head {c : Char} {l : Str} (h : c ≠ '/') :
    matchTmpDts (c :: l) = none := by
  have hd : dropLit (str ("/tmp/")) (c :: l) = none := by
    show (if '/' = c then dropLit (str ("tmp/")) l else none) = none
    rw [if_neg (fun hc => h hc.symm)]
  simp [matchTmpDts, hd]

theorem matchTmpDts_isPrefixB {l : Str} {p : Str × Str}
    (h : matchTmpDts l = some p) : isPrefixB (str ("/tmp/")) l = true := by
  simp only [matchTmpDts, Option.bind_eq_some] at h
  obtain ⟨l1, hd, _⟩ := h
  exact dropLit_isPrefixB hd

/-- A line in which `/tmp/` does not occur is left unchanged (with a zero
substitution count) by the scanner. -/
theorem subnAux_no_tmp {l : Str} (h : containsSub (str ("/tmp/")) l = false)
    (f : Nat) : subnAux f l = (l, 0) := by
  induction f generalizing l with
  | zero => rw [subnAux_zero]
  | succ n ih =>
    cases l with
    | nil => rw [subnAux_nil]
    | cons c cs =>
      rw [show containsSub (str ("/tmp/")) (c :: cs)
          = (isPrefixB (str ("/tmp/")) (c :: cs) || containsSub (str ("/tmp/")) cs)
        from rfl] at h
      simp only [Bool.or_eq_false_iff] at h
      cases hm : matchTmpDts (c :: cs) with
      | some q =>
        rw [matchTmpDts_isPrefixB hm] at h
        simp at h
      | none =>
        rw [subnAux_cons_none n hm, ih h.2]

theorem dropLit_dash (x : Str) : dropLit (str ("-")) ('-' :: x) = some x := rfl

theorem matchUuidDts_at {g8 g4a g4b g4c g12 : Str} (b : Str)
    (h8l : g8.length = 8) (h8h : ∀ c ∈ g8, isHexChar c = true)
    (h4al : g4a.length = 4) (h4ah : ∀ c ∈ g4a, isHexChar c = true)
    (h4bl : g4b.length = 4) (h4bh : ∀ c ∈ g4b, isHexChar c = true)
    (h4cl : g4c.length = 4) (h4ch : ∀ c ∈ g4c, isHexChar c = true)
    (h12l : g12.length = 12) (h12h : ∀ c ∈ g12, isHexChar c = true) :
    matchUuidDts (g8 ++ '-' :: (g4a ++ '-' :: (g4b ++ '-' :: (g4c ++ '-'
      :: (g12 ++ (str (".dts") ++ b)))))) = some b := by
  simp only [matchUuidDts]
  rw [takeHex_exact h8l h8h, Option.some_bind, dropLit_dash, Option.some_bind,
    takeHex_exact h4al h4ah, Option.some_bind, dropLit_dash, Option.some_bind,
    takeHex_exact h4bl h4bh, Option.some_bind, dropLit_dash, Option.some_bind,
    takeHex_exact h4cl h4ch, Option.some_bind, dropLit_dash, Option.some_bind,
    takeHex_exact h12l h12h, Option.some_bind, dropLit_self]

theorem matchTmpDts_at {stem g8 g4a g4b g4c g12 : Str} (b : Str)
    (hstem : stem ≠ []) (hnd : ∀ c ∈ stem, c ≠ '-')
    (h8l : g8.length = 8) (h8h : ∀ c ∈ g8, isHexChar c = true)
    (h4al : g4a.length = 4) (h4ah : ∀ c ∈ g4a, isHexChar c = true)
    (h4bl : g4b.length = 4) (h4bh : ∀ c ∈ g4b, isHexChar c = true)
    (h4cl : g4c.length = 4) (h4ch : ∀ c ∈ g4c, isHexChar c = true)
    (h12l : g12.length = 12) (h12h : ∀ c ∈ g12, isHexChar c = true) :
    matchTmpDts (str ("/tmp/") ++ (stem ++ '-' :: (g8 ++ '-' :: (g4a ++ '-'
        :: (g4b ++ '-' :: (g4c ++ '-' :: (g12 ++ (str (".dts") ++ b))))))))
      = some (stem, b) := by
  simp only [matchTmpDts]
  rw [dropLit_self, Option.some_bind,
    spanNonDash_no_dash hnd (g8 ++ '-' :: (g4a ++ '-' :: (g4b ++ '-'
      :: (g4c ++ '-' :: (g12 ++ (str (".dts") ++ b))))))]
  have hne : stem.isEmpty = false := by
    cases stem with
    | nil => exact absurd rfl hstem
    | cons c s => rfl
  simp only [hne, Bool.false_eq_true, if_false]
  rw [matchUuidDts_at b h8l h8h h4al h4ah h4bl h4bh h4cl h4ch h12l h12h]
  rfl

theorem matchTmpDts_empty : matchTmpDts [] = none := rfl

theorem subnAux_of_match {l base rest : Str} (f : Nat)
    (hm : matchTmpDts l = some (base, rest)) :
    subnAux (f + 1) l
      = (base ++ str (".dts") ++ (subnAux f rest).1, (subnAux f rest).2 + 1) := by
  cases l with
  | nil => rw [matchTmpDts_empty] at hm; exact absurd hm (by simp)
  | cons c cs => exact subnAux_cons_some f hm

theorem subnAux_skip {a : Str} (ha : ∀ c ∈ a, c ≠ '/') {x : Str} {f : Nat}
    (hf : (a ++ x).length ≤ f) :
    subnAux f (a ++ x) = (a ++ (subnAux f x).1, (subnAux f x).2) := by
  induction a generalizing f with
  | nil => simp
  | cons c a ih =>
    cases f with
    | zero => simp at hf
    | succ n =>
      have hm : matchTmpDts (c :: (a ++ x)) = none :=
        matchTmpDts_head (ha c (by simp))
      rw [List.cons_append, subnAux_cons_none n hm]
      have hlen : (a ++ x).length ≤ n := by
        simp only [List.cons_append, List.length_cons] at hf
        omega
      rw [ih (fun d hd => ha d (by simp [hd])) hlen]
      have hx1 : x.length ≤ n := by
        simp only [List.length_append] at hlen
        omega
      rw [subnAux_fuel n (n + 1) x hx1 (by omega)]
      simp

/-- One leftmost match inside a line whose prefix `a` contains no slash
(so no `/tmp/` occurrence can start in or span out of `a`): the scan
keeps `a`, emits the replacement, and continues after the match. -/
theorem rewriteLine_append_match {a x base rest : Str}
    (ha : ∀ c ∈ a, c ≠ '/') (hm : matchTmpDts x = some (base, rest)) :
    rewriteLine (a ++ x) = a ++ base ++ str (".dts") ++ rewriteLine rest := by
  unfold rewriteLine
  rw [subnAux_skip ha le_rfl]
  have hshrink : rest.length < x.length := matchTmpDts_shrink hm
  obtain ⟨n, hn⟩ : ∃ n, (a ++ x).length = n + 1 := by
    refine ⟨(a ++ x).length - 1, ?_⟩
    simp only [List.length_append]
    omega
  have hr : rest.length ≤ n := by
    have hx : x.length ≤ (a ++ x).length := by simp [List.length_append]
    omega
  rw [hn, subnAux_of_match n hm,
    subnAux_fuel n rest.length rest hr le_rfl]
  simp [List.append_assoc]

/-! ## Claim theorems -/

/-- C4, counterexample: for input `a-b.dtb` (stem `a-b`, which contains a
hyphen) the generated scratch path embeds a perfectly valid uuid4 token,
yet `_reformat_dtc_output_line` leaves the line unchanged — the regex
capture `[^-]+` stops at the stem's own hyphen and the token check then
fails — so the diagnostic never references `a-b.dts`. -/
theorem c4_rewrite_counterexample :
    reformat_dtc_output_line dashStemLine = dashStemLine
      ∧ containsSub (str ("a-b.dts")) (reformat_dtc_output_line dashStemLine)
          = false := by
  constructor
  · decide
  · decide

/-- C4 (amended): the diagnostic rewrite replaces the generated scratch
path with `stem.dts` when the scratch directory is the preferred `/tmp`,
the input stem is non-empty and hyphen-free, the unique token has the
hyphenated uuid4 hex shape `8-4-4-4-12` actually generated by the code,
and no slash occurs in the line before the path.  The line becomes
`prefix ++ stem ++ ".dts" ++ (rest, itself rewritten)`. -/
theorem c4_rewrite_amended (a b stem g8 g4a g4b g4c g12 : Str)
    (hslash : ∀ c ∈ a, c ≠ '/')
    (hstem : stem ≠ []) (hnd : ∀ c ∈ stem, c ≠ '-')
    (h8l : g8.length = 8) (h8h : ∀ c ∈ g8, isHexChar c = true)
    (h4al : g4a.length = 4) (h4ah : ∀ c ∈ g4a, isHexChar c = true)
    (h4bl : g4b.length = 4) (h4bh : ∀ c ∈ g4b, isHexChar c = true)
    (h4cl : g4c.length = 4) (h4ch : ∀ c ∈ g4c, isHexChar c = true)
    (h12l : g12.length = 12) (h12h : ∀ c ∈ g12, isHexChar c = true) :
    reformat_dtc_output_line (a ++ str ("/tmp/") ++ stem ++ str ("-") ++ g8
        ++ str ("-") ++ g4a ++ str ("-") ++ g4b ++ str ("-") ++ g4c ++ str ("-")
        ++ g12 ++ str (".dts") ++ b)
      = a ++ stem ++ str (".dts") ++ rewriteLine b := by
  have e : a ++ str ("/tmp/") ++ stem ++ str ("-") ++ g8 ++ str ("-") ++ g4a
      ++ str ("-") ++ g4b ++ str ("-") ++ g4c ++ str ("-") ++ g12
      ++ str (".dts") ++ b
    = a ++ (str ("/tmp/") ++ (stem ++ '-' :: (g8 ++ '-' :: (g4a ++ '-'
      :: (g4b ++ '-' :: (g4c ++ '-' :: (g12 ++ (str (".dts") ++ b)))))))) := by
    rw [show str ("-") = ['-'] from rfl]
    simp [List.append_assoc]
  rw [e, reformat_eq,
    rewriteLine_append_match hslash
      (matchTmpDts_at b hstem hnd h8l h8h h4al h4ah h4bl h4bh h4cl h4ch
        h12l h12h)]

/-- C4 (amended), witness at `stem = "foo"`, the all-zero uuid4 token, a
slash-free prefix and a non-trivial suffix. -/
theorem c4_rewrite_witness :
    reformat_dtc_output_line (str ("x ") ++ str ("/tmp/") ++ str ("foo")
        ++ str ("-") ++ str ("00000000") ++ str ("-") ++ str ("0000") ++ str ("-")
        ++ str ("0000") ++ str ("-") ++ str ("0000") ++ str ("-")
        ++ str ("000000000000") ++ str (".dts") ++ str (": warning"))
      = str ("x ") ++ str ("foo") ++ str (".dts") ++ rewriteLine (str (": warning")) :=
  c4_rewrite_amended (str ("x ")) (str (": warning")) (str ("foo"))
    (str ("00000000")) (str ("0000")) (str ("0000")) (str ("0000"))
    (str ("000000000000"))
    (by decide) (by decide) (by decide) (by decide) (by decide) (by decide)
    (by decide) (by decide) (by decide) (by decide) (by decide) (by decide)
    (by decide)

/-- C9, counterexample: the rewrite is not idempotent.  On `overlapLine`
the first pass rewrites only the embedded second scratch path; the glued
residue forms a fresh match (`b` is itself a hex digit, completing the
last 11-digit group to 12), so a second pass rewrites again. -/
theorem c9_idempotent_counterexample :
    reformat_dtc_output_line (reformat_dtc_output_line overlapLine)
      ≠ reformat_dtc_output_line overlapLine := by decide

/-- C9 (amended): the rewrite is idempotent on every line whose rewritten
form no longer contains `/tmp/` — which covers all lines the pipeline
re-applies it to unless a rewritten diagnostic still embeds a second
scratch-path-like fragment, as in the counterexample. -/
theorem c9_idempotent_amended (l : Str)
    (h : containsSub (str ("/tmp/")) (reformat_dtc_output_line l) = false) :
    reformat_dtc_output_line (reformat_dtc_output_line l)
      = reformat_dtc_output_line l := by
  rw [reformat_eq (reformat_dtc_output_line l)]
  unfold rewriteLine
  rw [subnAux_no_tmp h]

/-- C9 (amended), witness: a typical rewritten diagnostic line contains
no `/tmp/` anymore, so a second application changes nothing. -/
theorem c9_idempotent_witness :
    reformat_dtc_output_line (reformat_dtc_output_line
        (str ("/tmp/foo-00000000-0000-0000-0000-000000000000.dts: warning (x)")))
      = reformat_dtc_output_line
          (str ("/tmp/foo-00000000-0000-0000-0000-000000000000.dts: warning (x)")) :=
  c9_idempotent_amended
    (str ("/tmp/foo-00000000-0000-0000-0000-000000000000.dts: warning (x)"))
    (by decide)

/-- C7: a request on a non-file path short-circuits: the distinct
`invalidInput` condition is returned with the recent-files list untouched,
the result does not depend on the external tool at all (it is never
invoked), the save/find actions stay disabled, and no diagnostic lines
are produced. -/
theorem c7_invalid_input (e : Env) (recent : List Str)
    (h : e.input_is_file = false) :
    process_dtb_file e recent = (Outcome.invalidInput, recent)
      ∧ (∀ run2 : RunOutcome,
          process_dtb_file { e with run := run2 } recent
            = (Outcome.invalidInput, recent))
      ∧ Outcome.invalidInput.can_use = false
      ∧ Outcome.invalidInput.diags = []
      ∧ Outcome.invalidInput ≠ Outcome.scratchUnavailable
      ∧ ∀ r : ConvResult, Outcome.invalidInput ≠ Outcome.result r := by
  refine ⟨?_, ?_, rfl, rfl, by simp, fun r => by simp⟩
  · simp [process_dtb_file, h]
  · intro run2
    simp [process_dtb_file, h]

/-- C7, witness at a concrete request with a missing input file. -/
theorem c7_invalid_input_witness :
    process_dtb_file envNoInput [] = (Outcome.invalidInput, [])
      ∧ (∀ run2 : RunOutcome,
          process_dtb_file { envNoInput with run := run2 } []
            = (Outcome.invalidInput, []))
      ∧ Outcome.invalidInput.can_use = false
      ∧ Outcome.invalidInput.diags = []
      ∧ Outcome.invalidInput ≠ Outcome.scratchUnavailable
      ∧ ∀ r : ConvResult, Outcome.invalidInput ≠ Outcome.result r :=
  c7_invalid_input envNoInput [] (by decide)

/-- C3: whenever the input exists and a scratch directory was resolved,
exactly one result is produced and rendered, and its diagnostics sequence
is non-empty in every outcome branch (tool missing, invocation error,
non-zero exit with or without stderr, missing artifact, silent success). -/
theorem c3_diags_nonempty (e : Env) (recent : List Str)
    (h1 : e.input_is_file = true) (h2 : (scratchDir e).isSome = true) :
    ((process_dtb_file e recent).1).isResult = true
      ∧ 1 ≤ ((process_dtb_file e recent).1).diags.length := by
  obtain ⟨dir, hd⟩ := Option.isSome_iff_exists.mp h2
  cases hrun : e.run with
  | completed rc s =>
    by_cases hrc : rc = 0
    · subst hrc
      by_cases hex : e.out_file_exists
      · simp only [process_dtb_file, h1, hd, hrun, hex, if_true]
        by_cases hl : (initial_stderr_lines s).isEmpty
        · simp [Outcome.isResult, Outcome.diags, mkResult, hl]
        · simp only [hl, Bool.false_eq_true, if_false, if_true]
          refine ⟨rfl, ?_⟩
          simp only [Outcome.diags, mkResult, List.length_map]
          cases hq : initial_stderr_lines s with
          | nil => rw [hq] at hl; simp at hl
          | cons x xs => simp
      · simp only [process_dtb_file, h1, hd, hrun, hex, if_true, if_false,
          Bool.false_eq_true]
        simp [Outcome.isResult, Outcome.diags, mkResult]
    · simp only [process_dtb_file, h1, hd, hrun, if_true, if_neg hrc]
      by_cases hl : (initial_stderr_lines s).isEmpty
      · simp [Outcome.isResult, Outcome.diags, mkResult, hl]
      · simp only [hl, Bool.false_eq_true, if_false]
        refine ⟨rfl, ?_⟩
        simp [Outcome.diags, mkResult]
  | fileNotFound =>
    simp [process_dtb_file, h1, hd, hrun, Outcome.isResult, Outcome.diags,
      mkResult]
  | otherError m =>
    simp [process_dtb_file, h1, hd, hrun, Outcome.isResult, Outcome.diags,
      mkResult]

/-- C3, witness at the silent-success request. -/
theorem c3_diags_nonempty_witness :
    ((process_dtb_file envSilentSuccess []).1).isResult = true
      ∧ 1 ≤ ((process_dtb_file envSilentSuccess []).1).diags.length :=
  c3_diags_nonempty envSilentSuccess [] (by decide) (by decide)

/-- C1, counterexample: tool exits 0, the scratch artifact exists (its
text is empty), so by the claim the flag enabling save/find should be
true; the code computes `dtc_success and bool(dts_content)` and disables
both actions. -/
theorem c1_safe_flag_counterexample :
    envEmptyOutput.input_is_file = true
      ∧ envEmptyOutput.exitedZero = true
      ∧ envEmptyOutput.out_file_exists = true
      ∧ ((process_dtb_file envEmptyOutput []).1).can_use = false := by
  refine ⟨by decide, by decide, by decide, by decide⟩

/-- C1 (amended): for every request on an existing input with usable
scratch storage, the flag that enables save/find is true iff the tool
exited 0 AND the artifact exists AND the materialized text is non-empty;
it is false in every exception, non-zero-exit and missing-artifact
branch, and also when the materialized text is empty. -/
theorem c1_safe_flag_amended (e : Env) (recent : List Str)
    (h1 : e.input_is_file = true) (h2 : (scratchDir e).isSome = true) :
    ((process_dtb_file e recent).1).can_use
      = (e.exitedZero && e.out_file_exists && !e.out_file_content.isEmpty) := by
  obtain ⟨dir, hd⟩ := Option.isSome_iff_exists.mp h2
  cases hrun : e.run with
  | completed rc s =>
    by_cases hrc : rc = 0
    · subst hrc
      by_cases hex : e.out_file_exists
      · simp [process_dtb_file, h1, hd, hrun, hex, Outcome.can_use, mkResult,
          Env.exitedZero]
      · simp [process_dtb_file, h1, hd, hrun, hex, Outcome.can_use, mkResult,
          Env.exitedZero]
    · have hb : (rc == 0) = false := by simp [hrc]
      simp [process_dtb_file, h1, hd, hrun, hrc, Outcome.can_use, mkResult,
        Env.exitedZero, hb]
  | fileNotFound =>
    simp [process_dtb_file, h1, hd, hrun, Outcome.can_use, mkResult,
      Env.exitedZero]
  | otherError m =>
    simp [process_dtb_file, h1, hd, hrun, Outcome.can_use, mkResult,
      Env.exitedZero]

/-- C1 (amended), witness at the silent-success request (flag true). -/
theorem c1_safe_flag_witness :
    ((process_dtb_file envSilentSuccess []).1).can_use
      = (envSilentSuccess.exitedZero && envSilentSuccess.out_file_exists
          && !envSilentSuccess.out_file_content.isEmpty) :=
  c1_safe_flag_amended envSilentSuccess [] (by decide) (by decide)

/-- C2, counterexample: on the exit-2 run the synthesized line the code
prepends reads `dtc command failed with exit code 2.`, so the diagnostics
are not the pair the claim states (which begins
`tool failed with exit code 2.`); the prepending structure and the
failure flag themselves are right. -/
theorem c2_exit2_counterexample :
    ((process_dtb_file envExit2 []).1).diags
        ≠ [str ("tool failed with exit code 2."), str ("bad.dtb: invalid magic")]
      ∧ ((process_dtb_file envExit2 []).1).diags
        = [str ("dtc command failed with exit code 2."),
           str ("bad.dtb: invalid magic")] := by
  refine ⟨by decide, by decide⟩

/-- C2 (amended): input exists, tool exits 2 with stderr exactly
`bad.dtb: invalid magic` → success = false and the diagnostics are the
captured stderr line with the synthesized
`dtc command failed with exit code 2.` line prepended; the same summary
string is shown as the converted text. -/
theorem c2_exit2_amended (e : Env) (recent : List Str)
    (h1 : e.input_is_file = true) (h2 : (scratchDir e).isSome = true)
    (hrun : e.run = RunOutcome.completed 2 (str ("bad.dtb: invalid magic"))) :
    ((process_dtb_file e recent).1).success = false
      ∧ ((process_dtb_file e recent).1).diags
        = [str ("dtc command failed with exit code 2."),
           str ("bad.dtb: invalid magic")]
      ∧ ((process_dtb_file e recent).1).text = exit_code_msg 2 := by
  obtain ⟨dir, hd⟩ := Option.isSome_iff_exists.mp h2
  have h20 : ¬((2 : Int) = 0) := by norm_num
  simp only [process_dtb_file, h1, hd, hrun, if_true, if_neg h20]
  have hlines : initial_stderr_lines (str ("bad.dtb: invalid magic"))
      = [str ("bad.dtb: invalid magic")] := by decide
  rw [hlines]
  refine ⟨rfl, ?_, rfl⟩
  show ([exit_code_msg 2, str ("bad.dtb: invalid magic")].map
      reformat_dtc_output_line)
    = [str ("dtc command failed with exit code 2."), str ("bad.dtb: invalid magic")]
  decide

/-- C2 (amended), witness at the concrete exit-2 request. -/
theorem c2_exit2_witness :
    ((process_dtb_file envExit2 []).1).success = false
      ∧ ((process_dtb_file envExit2 []).1).diags
        = [str ("dtc command failed with exit code 2."),
           str ("bad.dtb: invalid magic")]
      ∧ ((process_dtb_file envExit2 []).1).text = exit_code_msg 2 :=
  c2_exit2_amended envExit2 [] (by decide) (by decide) (by decide)

/-- C5: tool exits 0 but the expected scratch output file is absent →
failure: success = false, the actions stay disabled, the converted text
is the synthesized missing-artifact message, and that message (rewritten
like every diagnostic line) is appended to the diagnostics. -/
theorem c5_missing_artifact (e : Env) (recent : List Str) (dir s : Str)
    (h1 : e.input_is_file = true) (hd : scratchDir e = some dir)
    (hrun : e.run = RunOutcome.completed 0 s)
    (hex : e.out_file_exists = false) :
    ((process_dtb_file e recent).1).success = false
      ∧ ((process_dtb_file e recent).1).can_use = false
      ∧ ((process_dtb_file e recent).1).text
          = missing_artifact_msg (out_dts_path e dir)
      ∧ ((process_dtb_file e recent).1).diags
          = (initial_stderr_lines s
              ++ [missing_artifact_msg (out_dts_path e dir)]).map
              reformat_dtc_output_line := by
  simp [process_dtb_file, h1, hd, hrun, hex, Outcome.success,
    Outcome.can_use, Outcome.text, Outcome.diags, mkResult]

/-- C5, witness at the concrete missing-artifact request. -/
theorem c5_missing_artifact_witness :
    ((process_dtb_file envMissingArtifact []).1).success = false
      ∧ ((process_dtb_file envMissingArtifact []).1).can_use = false
      ∧ ((process_dtb_file envMissingArtifact []).1).text
          = missing_artifact_msg (out_dts_path envMissingArtifact (str ("/tmp")))
      ∧ ((process_dtb_file envMissingArtifact []).1).diags
          = (initial_stderr_lines (str (""))
              ++ [missing_artifact_msg
                    (out_dts_path envMissingArtifact (str ("/tmp")))]).map
              reformat_dtc_output_line :=
  c5_missing_artifact envMissingArtifact [] (str ("/tmp")) (str (""))
    (by decide) (by decide) (by decide) (by decide)

/-- C6: input exists, tool exits 0 with empty stderr and the artifact was
written → success = true, the converted text is the artifact's decoded
contents, and the diagnostics are exactly the single synthesized line
`dtc command executed successfully.`. -/
theorem c6_silent_success (e : Env) (recent : List Str)
    (h1 : e.input_is_file = true) (h2 : (scratchDir e).isSome = true)
    (hrun : e.run = RunOutcome.completed 0 (str ("")))
    (hex : e.out_file_exists = true) :
    ((process_dtb_file e recent).1).success = true
      ∧ ((process_dtb_file e recent).1).text = e.out_file_content
      ∧ ((process_dtb_file e recent).1).diags = [success_msg] := by
  obtain ⟨dir, hd⟩ := Option.isSome_iff_exists.mp h2
  simp only [process_dtb_file, h1, hd, hrun, hex, if_true]
  have h0 : initial_stderr_lines (str ("")) = [] := rfl
  rw [h0]
  simp only [List.isEmpty_nil, if_true]
  refine ⟨rfl, rfl, ?_⟩
  show ([success_msg].map reformat_dtc_output_line) = [success_msg]
  decide

/-- C6, witness at the concrete silent-success request. -/
theorem c6_silent_success_witness :
    ((process_dtb_file envSilentSuccess []).1).success = true
      ∧ ((process_dtb_file envSilentSuccess []).1).text
          = envSilentSuccess.out_file_content
      ∧ ((process_dtb_file envSilentSuccess []).1).diags = [success_msg] :=
  c6_silent_success envSilentSuccess [] (by decide) (by decide) (by decide)
    (by decide)

/-- Every rendered result satisfies the code's enabling rule
`can_use = dtc_success and bool(dts_content)`. -/
theorem process_result_can_use {e : Env} {recent : List Str}
    {r : ConvResult}
    (hres : (process_dtb_file e recent).1 = Outcome.result r) :
    r.can_use = (r.dtc_success && !r.dts_content.isEmpty) := by
  by_cases h1 : e.input_is_file
  · cases hd : scratchDir e with
    | none => simp [process_dtb_file, h1, hd] at hres
    | some dir =>
      cases hrun : e.run with
      | completed rc s =>
        by_cases hrc : rc = 0
        · subst hrc
          by_cases hex : e.out_file_exists
          · simp [process_dtb_file, h1, hd, hrun, hex] at hres
            rw [← hres]
            simp [mkResult]
          · simp [process_dtb_file, h1, hd, hrun, hex] at hres
            rw [← hres]
            simp [mkResult]
        · simp [process_dtb_file, h1, hd, hrun, hrc] at hres
          rw [← hres]
          simp [mkResult]
      | fileNotFound =>
        simp [process_dtb_file, h1, hd, hrun] at hres
        rw [← hres]
        simp [mkResult]
      | otherError m =>
        simp [process_dtb_file, h1, hd, hrun] at hres
        rw [← hres]
        simp [mkResult]
  · simp [process_dtb_file, h1] at hres

/-- C8: after a successful conversion (the enabling flag is on), saving
writes exactly the UTF-8 encoding of the displayed text, which is the
retained conversion text — the saved bytes round-trip the panel
contents. -/
theorem c8_save_roundtrip (e : Env) (recent : List Str) (r : ConvResult)
    (hres : (process_dtb_file e recent).1 = Outcome.result r)
    (huse : r.can_use = true) :
    save_dts_as
        { current_dts_content := r.dts_content,
          displayed_text := r.dts_content,
          save_enabled := r.can_use }
      = some (utf8Encode r.dts_content) := by
  have hspec := process_result_can_use hres
  rw [huse] at hspec
  have hne : r.dts_content.isEmpty = false := by
    cases hh : r.dts_content.isEmpty
    · rfl
    · rw [hh] at hspec
      simp at hspec
  simp [save_dts_as, hne, huse]

/-- C8, witness: the silent-success conversion followed by a save; the
result panel shows `/dts-v1/;` and exactly its UTF-8 bytes are written. -/
theorem c8_save_roundtrip_witness :
    save_dts_as
        { current_dts_content := (mkResult (str ("/dts-v1/;")) [success_msg]
            true).dts_content,
          displayed_text := (mkResult (str ("/dts-v1/;")) [success_msg]
            true).dts_content,
          save_enabled := (mkResult (str ("/dts-v1/;")) [success_msg]
            true).can_use }
      = some (utf8Encode (mkResult (str ("/dts-v1/;")) [success_msg]
          true).dts_content) :=
  c8_save_roundtrip envSilentSuccess []
    (mkResult (str ("/dts-v1/;")) [success_msg] true) (by decide) (by decide)

/-- C10: the recent-files list (and hence what `save_recent_files`
persists) is modified by a conversion only in the success branch: under
any failing condition — nonexistent input, no scratch directory, tool not
found, invocation error, non-zero exit, missing artifact — the returned
list is exactly the input list, and `clear_views` never touches the
recent-files slice of the window state. -/
theorem c10_recent_frame (e : Env) (recent : List Str) (s : AppState)
    (h : convSucceeded e = false) :
    (process_dtb_file e recent).2 = recent
      ∧ (clear_views s).recent_files = s.recent_files := by
  refine ⟨?_, rfl⟩
  by_cases h1 : e.input_is_file
  · cases hd : scratchDir e with
    | none => simp [process_dtb_file, h1, hd]
    | some dir =>
      cases hrun : e.run with
      | completed rc st =>
        by_cases hrc : rc = 0
        · subst hrc
          by_cases hex : e.out_file_exists
          · exfalso
            have : convSucceeded e = true := by
              simp [convSucceeded, h1, hd, Env.exitedZero, hrun, hex]
            rw [this] at h
            cases h
          · simp [process_dtb_file, h1, hd, hrun, hex]
        · simp [process_dtb_file, h1, hd, hrun, hrc]
      | fileNotFound => simp [process_dtb_file, h1, hd, hrun]
      | otherError m => simp [process_dtb_file, h1, hd, hrun]
  · simp [process_dtb_file, h1]

/-- C10, witness at the exit-2 request and a populated window state. -/
theorem c10_recent_frame_witness :
    (process_dtb_file envExit2 [str ("/home/u/old.dtb")]).2
        = [str ("/home/u/old.dtb")]
      ∧ (clear_views appStateEx).recent_files = appStateEx.recent_files :=
  c10_recent_frame envExit2 [str ("/home/u/old.dtb")] appStateEx (by decide)
